import Mathlib

/-!
Shallow embedding of `src/zipvoice/dataset/datamodule.py` (ZipVoice TTS data
module) and proofs of the specification claims about it.

The module is argument-driven glue: it declares command-line options, builds
`SpeechSynthesisDataset` instances per phase, selects a sampler
(`DynamicBucketingSampler` or `SimpleCutSampler`), and wraps them in a
`DataLoader` with deterministic per-worker seeding for training. External
library behaviour (torch, lhotse, the dataset class in another repo file) is
modelled from the spec where the claims need it; everything else is a direct
translation of the Python source.
-/

namespace ZipVoice

/-! ## Option registry (`TtsDataModule.add_arguments`) -/

/-- Types an option declaration can carry in `add_arguments`:
`Path`, `int`, `str2bool`, or `str` (the argparse `type=` argument). -/
inductive OptType where
  | tPath
  | tInt
  | tStr2bool
  | tStr
deriving DecidableEq

/-- Runtime values of option defaults. Python distinguishes the int literal
`200` from the float literal `200.0`; argparse stores a non-string default
unchanged, without applying the `type=` converter. Floats that appear in the
source are exact, so they are embedded as rationals. -/
inductive Value where
  | vPath (s : String)
  | vInt (n : ℤ)
  | vFloat (q : ℚ)
  | vBool (b : Bool)
  | vStr (s : String)
deriving DecidableEq

/-- One `group.add_argument(name, type=ty, default=d)` call. -/
structure OptionDecl where
  name : String
  ty : OptType
  default : Value
deriving DecidableEq

/-- Embedding of `TtsDataModule.add_arguments`: the exact list of option
declarations, in source order, with the literal defaults from the source
(`--max-duration` is declared with `type=int` but `default=200.0`, a float). -/
def add_arguments : List OptionDecl :=
  [ ⟨"--manifest-dir", OptType.tPath, Value.vPath "data/fbank"⟩,
    ⟨"--max-duration", OptType.tInt, Value.vFloat 200⟩,
    ⟨"--bucketing-sampler", OptType.tStr2bool, Value.vBool true⟩,
    ⟨"--num-buckets", OptType.tInt, Value.vInt 30⟩,
    ⟨"--on-the-fly-feats", OptType.tStr2bool, Value.vBool false⟩,
    ⟨"--shuffle", OptType.tStr2bool, Value.vBool true⟩,
    ⟨"--drop-last", OptType.tStr2bool, Value.vBool true⟩,
    ⟨"--return-cuts", OptType.tStr2bool, Value.vBool false⟩,
    ⟨"--num-workers", OptType.tInt, Value.vInt 8⟩,
    ⟨"--input-strategy", OptType.tStr, Value.vStr "PrecomputedFeatures"⟩ ]

/-- Default value registered for an option name, as argparse would store it
when the option is absent from the command line. -/
def optionDefault (name : String) : Option Value :=
  (add_arguments.find? (fun o => o.name == name)).map OptionDecl.default

/-- Declared `type=` converter of an option name. -/
def optionType (name : String) : Option OptType :=
  (add_arguments.find? (fun o => o.name == name)).map OptionDecl.ty

/-! ## Parsed configuration (`argparse.Namespace` consumed by the module) -/

/-- Configuration record read by the three loader constructors: the parsed
values of the options above (field names follow the attribute names the
source reads off `self.args`). -/
structure Args where
  manifest_dir : String
  max_duration : ℚ
  bucketing_sampler : Bool
  num_buckets : ℕ
  on_the_fly_feats : Bool
  shuffle : Bool
  drop_last : Bool
  return_cuts : Bool
  num_workers : ℕ
  input_strategy : String
deriving DecidableEq

/-! ## Cuts -/

/-- A cut: the atomic training example, identified by an id and carrying a
duration in seconds. Only these two attributes matter to the claims. -/
structure Cut where
  id : ℕ
  duration : ℚ
deriving DecidableEq

/-- A cut collection, as fed to the sampler constructors. -/
abbrev CutSet := List Cut

/-- Total duration of the cuts assigned to one batch. -/
def batch_duration (b : List Cut) : ℚ := (b.map Cut.duration).sum

/-- Fixed external constant from the source: `SAMPLING_RATE = 24000`. -/
def SAMPLING_RATE : ℕ := 24000

/-! ## Worker seeding (`_SeedWorkers`, `fix_random_seed`) -/

/-- Random state of a worker after reseeding; `fix_random_seed` installs the
given seed, so the state is captured by that seed. -/
structure RngState where
  seed : ℤ
deriving DecidableEq

/-- Modelled from the spec: `lhotse.utils.fix_random_seed` (library code not
under `src/`) reseeds "that worker's random state at startup" with the given
seed. -/
def fix_random_seed (seed : ℤ) : RngState := ⟨seed⟩

/-- Embedding of the `_SeedWorkers` class: a callable capturing one base
seed. -/
structure _SeedWorkers where
  seed : ℤ
deriving DecidableEq

/-- Embedding of `_SeedWorkers.__call__`: reseed the worker's random state
with `self.seed + worker_id`. -/
def _SeedWorkers.call (w : _SeedWorkers) (worker_id : ℤ) : RngState :=
  fix_random_seed (w.seed + worker_id)

/-- Modelled from the spec: `torch.randint(low, high, ()).item()` (library
code not under `src/`) draws one integer in `[low, high)` from the ambient
random generator, whose state is modelled by the natural number `g`. -/
def torch_randint_item (low high : ℤ) (g : ℕ) : ℤ :=
  low + ((g % (high - low).toNat : ℕ) : ℤ)

/-! ## Datasets (`SpeechSynthesisDataset`) -/

/-- Feature extractor used for on-the-fly features; takes no constructor
arguments in the source (`VocosFbank()`). -/
structure VocosFbank
deriving DecidableEq

/-- Input strategy passed to the dataset: on-the-fly extraction wrapping a
`VocosFbank`, or precomputed features. -/
inductive FeatureInputStrategy where
  | OnTheFlyFeatures (extractor : VocosFbank)
  | PrecomputedFeatures
deriving DecidableEq

/-- Modelled from the spec: `SpeechSynthesisDataset` (a repository file not
under `src/`) is configured by flags saying which fields each batch carries:
text, token sequences, speaker ids, the feature strategy, optionally cut
references, and optionally raw audio (`return_audio` defaults to false and is
passed only by the test-phase constructor). -/
structure SpeechSynthesisDataset where
  return_text : Bool
  return_tokens : Bool
  return_spk_ids : Bool
  feature_input_strategy : FeatureInputStrategy
  return_cuts : Bool
  return_audio : Bool := false
deriving DecidableEq

/-! ## Samplers -/

/-- Sampler state dicts are treated as tokens: the module never inspects
them, it only passes them to `load_state_dict`. -/
abbrev StateDict := ℕ

/-- Modelled from the spec: `lhotse.dataset.DynamicBucketingSampler` (library
code not under `src/`) as parameterized by this module — the constructor
keyword arguments become fields; `drop_last` defaults to off and
`loaded_state_dict` records a state dict loaded after construction. -/
structure DynamicBucketingSampler where
  cuts : CutSet
  max_duration : ℚ
  shuffle : Bool
  num_buckets : Option ℕ := none
  buffer_size : Option ℕ := none
  shuffle_buffer_size : Option ℕ := none
  drop_last : Bool := false
  loaded_state_dict : Option StateDict := none
deriving DecidableEq

/-- Modelled from the spec: `lhotse.dataset.SimpleCutSampler` (library code
not under `src/`) as parameterized by this module — only a cut collection, a
max duration and a shuffle flag (no bucket count, no drop-last control). -/
structure SimpleCutSampler where
  cuts : CutSet
  max_duration : ℚ
  shuffle : Bool
  loaded_state_dict : Option StateDict := none
deriving DecidableEq

/-- The sampler kinds the training constructor can build. -/
inductive CutSampler where
  | dynamic (s : DynamicBucketingSampler)
  | simple (s : SimpleCutSampler)
deriving DecidableEq

/-- Modelled from the spec: `load_state_dict` stores the supplied state into
the freshly constructed sampler of either kind; no compatibility check
between the state and the sampler kind is performed. -/
def CutSampler.load_state_dict : CutSampler → StateDict → CutSampler
  | CutSampler.dynamic s, sd => CutSampler.dynamic { s with loaded_state_dict := some sd }
  | CutSampler.simple s, sd => CutSampler.simple { s with loaded_state_dict := some sd }

/-- The state dict currently loaded in a sampler, if any. -/
def CutSampler.loaded_state : CutSampler → Option StateDict
  | CutSampler.dynamic s => s.loaded_state_dict
  | CutSampler.simple s => s.loaded_state_dict

/-- Greedy duration-capped packing: accumulate cuts into the current batch
while the duration budget `D` allows, else emit the batch and start a new
one. `cur` holds the current batch in reverse order. -/
def pack_go (D : ℚ) : List Cut → List Cut → List (List Cut)
  | [], cur => if cur = [] then [] else [cur.reverse]
  | c :: rest, cur =>
      if cur = [] then pack_go D rest [c]
      else if batch_duration cur + c.duration ≤ D then pack_go D rest (c :: cur)
      else cur.reverse :: pack_go D rest [c]

/-- Modelled from the spec: batch construction is delegated to the external
bucketing sampler, which "groups cuts of similar duration into buckets ...
while respecting a per-batch duration budget"; with shuffling on, iteration
follows a shuffled order (supplied here as `shuffle_order`), with shuffling
off it follows the cut collection's own order. Every cut is assigned to some
batch, so a single cut longer than the budget necessarily occupies a batch
by itself that exceeds the budget — the spec's bound therefore holds exactly
when each individual cut fits the budget. -/
def DynamicBucketingSampler.batches (s : DynamicBucketingSampler)
    (shuffle_order : List Cut) : List (List Cut) :=
  pack_go s.max_duration (if s.shuffle then shuffle_order else s.cuts) []

/-! ## DataLoaders -/

/-- Modelled from the spec: `torch.utils.data.DataLoader` (library code not
under `src/`) as parameterized by this module — `batch_size=None` leaves
batching to the sampler, `persistent_workers` defaults to off, and
`worker_init_fn` is the optional per-worker seeding callable. -/
structure DataLoader where
  dataset : SpeechSynthesisDataset
  sampler : CutSampler
  batch_size : Option ℕ := none
  num_workers : ℕ
  persistent_workers : Bool := false
  worker_init_fn : Option _SeedWorkers := none
deriving DecidableEq

/-- Embedding of `TtsDataModule.train_dataloaders`: builds the training
dataset, selects the sampler by the bucketing flag, optionally loads a prior
sampler state, draws a base seed from the ambient generator state `g`, and
wraps everything in a `DataLoader`. -/
def train_dataloaders (args : Args) (cuts_train : CutSet)
    (sampler_state_dict : Option StateDict) (g : ℕ) : DataLoader :=
  let train : SpeechSynthesisDataset :=
    { return_text := true
      return_tokens := true
      return_spk_ids := true
      feature_input_strategy :=
        if args.on_the_fly_feats then
          FeatureInputStrategy.OnTheFlyFeatures ⟨⟩
        else FeatureInputStrategy.PrecomputedFeatures
      return_cuts := args.return_cuts }
  let train_sampler : CutSampler :=
    if args.bucketing_sampler then
      CutSampler.dynamic
        { cuts := cuts_train
          max_duration := args.max_duration
          shuffle := args.shuffle
          num_buckets := some args.num_buckets
          buffer_size := some (args.num_buckets * 2000)
          shuffle_buffer_size := some (args.num_buckets * 5000)
          drop_last := args.drop_last }
    else
      CutSampler.simple
        { cuts := cuts_train
          max_duration := args.max_duration
          shuffle := args.shuffle }
  let train_sampler : CutSampler :=
    match sampler_state_dict with
    | some sd => train_sampler.load_state_dict sd
    | none => train_sampler
  let seed : ℤ := torch_randint_item 0 100000 g
  let worker_init_fn : _SeedWorkers := ⟨seed⟩
  { dataset := train
    sampler := train_sampler
    batch_size := none
    num_workers := args.num_workers
    persistent_workers := false
    worker_init_fn := some worker_init_fn }

/-- Embedding of `TtsDataModule.dev_dataloaders`: dev dataset, a dynamic
bucketing sampler with shuffling off, loader with 2 workers and persistent
workers off. -/
def dev_dataloaders (args : Args) (cuts_valid : CutSet) : DataLoader :=
  let validate : SpeechSynthesisDataset :=
    { return_text := true
      return_tokens := true
      return_spk_ids := true
      feature_input_strategy :=
        if args.on_the_fly_feats then
          FeatureInputStrategy.OnTheFlyFeatures ⟨⟩
        else FeatureInputStrategy.PrecomputedFeatures
      return_cuts := args.return_cuts }
  let dev_sampler : DynamicBucketingSampler :=
    { cuts := cuts_valid
      max_duration := args.max_duration
      shuffle := false }
  { dataset := validate
    sampler := CutSampler.dynamic dev_sampler
    batch_size := none
    num_workers := 2
    persistent_workers := false
    worker_init_fn := none }

/-- Embedding of `TtsDataModule.test_dataloaders`: test dataset (which also
returns raw audio), a dynamic bucketing sampler with shuffling off, loader
with the configured worker count; `persistent_workers` is not passed, so the
library default (off) applies. -/
def test_dataloaders (args : Args) (cuts : CutSet) : DataLoader :=
  let test : SpeechSynthesisDataset :=
    { return_text := true
      return_tokens := true
      return_spk_ids := true
      feature_input_strategy :=
        if args.on_the_fly_feats then
          FeatureInputStrategy.OnTheFlyFeatures ⟨⟩
        else FeatureInputStrategy.PrecomputedFeatures
      return_cuts := args.return_cuts
      return_audio := true }
  let test_sampler : DynamicBucketingSampler :=
    { cuts := cuts
      max_duration := args.max_duration
      shuffle := false }
  { dataset := test
    sampler := CutSampler.dynamic test_sampler
    batch_size := none
    num_workers := args.num_workers
    worker_init_fn := none }

/-! ## Memoized manifest accessors (`lru_cache` over `load_manifest_lazy`) -/

/-- Process-local state of the memoization: a cache mapping manifest paths to
already-loaded cut-collection handles, and a counter producing fresh handle
identities. -/
structure ModuleState where
  cache : List (String × ℕ)
  next_handle : ℕ
deriving DecidableEq

/-- State at process start: empty cache, no handles issued. -/
def initState : ModuleState := ⟨[], 0⟩

/-- Modelled from the spec: `lhotse.load_manifest_lazy` (library code not
under `src/`) lazily opens a manifest and returns a fresh cut-collection
handle; each load produces a new identity. -/
def load_manifest_lazy (st : ModuleState) : ℕ × ModuleState :=
  (st.next_handle, ⟨st.cache, st.next_handle + 1⟩)

/-- Embedding of the `@lru_cache()`-decorated accessor
`TtsDataModule.train_custom_cuts`: on a cache hit return the cached handle
unchanged, otherwise load the manifest and record the new handle under the
path. -/
def train_custom_cuts (st : ModuleState) (manifest_file : String) :
    ℕ × ModuleState :=
  match st.cache.lookup manifest_file with
  | some h => (h, st)
  | none =>
      let r := load_manifest_lazy st
      (r.1, ⟨(manifest_file, r.1) :: r.2.cache, r.2.next_handle⟩)

/-- Concrete sampler used to witness the batch-duration bound: three cuts of
durations 3, 4 and 5 seconds under a 10-second budget. -/
def witness_sampler : DynamicBucketingSampler :=
  { cuts := [⟨0, 3⟩, ⟨1, 4⟩, ⟨2, 5⟩]
    max_duration := 10
    shuffle := false }

/-- Concrete sampler refuting the unconditional batch-duration bound: one
cut of duration 300 seconds under a 200-second budget. -/
def oversize_sampler : DynamicBucketingSampler :=
  { cuts := [⟨0, 300⟩]
    max_duration := 200
    shuffle := false }

/-! ## Helper lemmas -/

lemma batch_duration_nil : batch_duration [] = 0 := rfl

lemma batch_duration_cons (c : Cut) (l : List Cut) :
    batch_duration (c :: l) = c.duration + batch_duration l := by
  simp [batch_duration]

lemma batch_duration_reverse (l : List Cut) :
    batch_duration l.reverse = batch_duration l := by
  simp [batch_duration, List.sum_reverse]

/-- Every batch emitted by the greedy packer stays within the budget `D`,
provided every incoming cut fits the budget on its own and the current batch
does too. -/
lemma pack_go_sound (D : ℚ) (cuts : List Cut) :
    ∀ cur : List Cut, (∀ c ∈ cuts, c.duration ≤ D) →
      (cur = [] ∨ batch_duration cur ≤ D) →
      ∀ b ∈ pack_go D cuts cur, batch_duration b ≤ D := by
  induction cuts with
  | nil =>
      intro cur _ hcur b hb
      by_cases h : cur = []
      · simp [pack_go, h] at hb
      · simp only [pack_go, if_neg h, List.mem_singleton] at hb
        subst hb
        rw [batch_duration_reverse]
        exact hcur.resolve_left h
  | cons c rest ih =>
      intro cur hcuts hcur b hb
      have hc : c.duration ≤ D := hcuts c (List.mem_cons_self c rest)
      have hrest : ∀ x ∈ rest, x.duration ≤ D :=
        fun x hx => hcuts x (List.mem_cons_of_mem c hx)
      simp only [pack_go] at hb
      split_ifs at hb with h h2
      · refine ih [c] hrest (Or.inr ?_) b hb
        rw [batch_duration_cons, batch_duration_nil]
        linarith
      · refine ih (c :: cur) hrest (Or.inr ?_) b hb
        rw [batch_duration_cons]
        linarith
      · rcases List.mem_cons.mp hb with rfl | hb2
        · rw [batch_duration_reverse]
          exact hcur.resolve_left h
        · refine ih [c] hrest (Or.inr ?_) b hb2
          rw [batch_duration_cons, batch_duration_nil]
          linarith

/-! ## Claim theorems -/

/-- C1: for every base seed drawn at training-loader construction (from
generator state `g`) and every worker id `W`, the seed installed in that
worker equals the base seed plus `W`; and two training-loader constructions
drawing the same base seed (same `g`) install the very same per-worker
seeding callable, hence identical per-worker seeds for every worker id. -/
theorem worker_seed_is_base_plus_id (args args2 : Args)
    (cuts cuts2 : CutSet) (sd sd2 : Option StateDict) (g : ℕ) (W : ℤ) :
    ∃ fn : _SeedWorkers,
      (train_dataloaders args cuts sd g).worker_init_fn = some fn ∧
      (fn.call W).seed = torch_randint_item 0 100000 g + W ∧
      (train_dataloaders args2 cuts2 sd2 g).worker_init_fn = some fn :=
  ⟨⟨torch_randint_item 0 100000 g⟩, rfl, rfl, rfl⟩

/-- C2 counterexample: the unconditional bound fails — a sampler over a
single 300-second cut with a 200-second budget produces a batch whose total
duration exceeds the configured maximum, since every cut is assigned to some
batch. -/
theorem batches_can_exceed_max_duration :
    ¬ ∀ b ∈ oversize_sampler.batches [],
        batch_duration b ≤ oversize_sampler.max_duration := by
  intro h
  have hb := h [⟨0, 300⟩] (by
    simp [oversize_sampler, DynamicBucketingSampler.batches, pack_go])
  rw [batch_duration_cons, batch_duration_nil] at hb
  norm_num [oversize_sampler] at hb

/-- C2 (amended): every batch produced by a bucketing sampler with
configured maximum duration `max_duration` has total cut duration at most
`max_duration`, whenever each individual cut (in the collection and in the
shuffled iteration order) fits the budget; a cut longer than the budget
instead occupies a batch by itself that exceeds it. -/
theorem batches_respect_max_duration (s : DynamicBucketingSampler)
    (shuffle_order : List Cut)
    (hcuts : ∀ c ∈ s.cuts, c.duration ≤ s.max_duration)
    (horder : ∀ c ∈ shuffle_order, c.duration ≤ s.max_duration) :
    ∀ b ∈ s.batches shuffle_order, batch_duration b ≤ s.max_duration := by
  have hall : ∀ c ∈ (if s.shuffle then shuffle_order else s.cuts),
      c.duration ≤ s.max_duration := by
    intro c hc
    by_cases h : s.shuffle = true
    · rw [if_pos h] at hc
      exact horder c hc
    · rw [if_neg h] at hc
      exact hcuts c hc
  intro b hb
  simp only [DynamicBucketingSampler.batches] at hb
  exact pack_go_sound s.max_duration _ [] hall (Or.inl rfl) b hb

/-- Witness for C2 at a concrete sampler: durations 3, 4, 5 under budget
10. -/
theorem batches_respect_max_duration_witness :
    (∀ c ∈ witness_sampler.cuts, c.duration ≤ witness_sampler.max_duration) ∧
    (∀ c ∈ ([] : List Cut), c.duration ≤ witness_sampler.max_duration) ∧
    ∀ b ∈ witness_sampler.batches [],
      batch_duration b ≤ witness_sampler.max_duration :=
  ⟨by decide, by decide,
    batches_respect_max_duration witness_sampler [] (by decide) (by decide)⟩

/-- C3: the training sampler is a dynamic bucketing sampler over the
configured max duration, bucket count, a read-ahead buffer of 2000 times the
bucket count, a shuffle buffer of 5000 times the bucket count, the shuffle
flag and the drop-last flag when bucketing is enabled, and a simple sampler
over only the max duration and shuffle flag when bucketing is disabled. -/
theorem train_sampler_selection (args : Args) (cuts : CutSet) (g : ℕ) :
    (train_dataloaders args cuts none g).sampler =
      if args.bucketing_sampler then
        CutSampler.dynamic
          { cuts := cuts
            max_duration := args.max_duration
            shuffle := args.shuffle
            num_buckets := some args.num_buckets
            buffer_size := some (args.num_buckets * 2000)
            shuffle_buffer_size := some (args.num_buckets * 5000)
            drop_last := args.drop_last
            loaded_state_dict := none }
      else
        CutSampler.simple
          { cuts := cuts
            max_duration := args.max_duration
            shuffle := args.shuffle
            loaded_state_dict := none } :=
  rfl

/-- C4: the dev and test loader constructors always build a dynamic
bucketing sampler with shuffling off and drop-last off, for every
configuration; consequently the batches those samplers produce do not depend
on any shuffled iteration order, so repeated runs over the same cut
collection yield the same batches in the same order. -/
theorem dev_test_samplers_never_shuffle (args : Args)
    (cuts_valid cuts_test : CutSet) :
    ∃ sdev stest : DynamicBucketingSampler,
      (dev_dataloaders args cuts_valid).sampler = CutSampler.dynamic sdev ∧
      sdev.shuffle = false ∧ sdev.drop_last = false ∧
      (∀ o1 o2 : List Cut, sdev.batches o1 = sdev.batches o2) ∧
      (test_dataloaders args cuts_test).sampler = CutSampler.dynamic stest ∧
      stest.shuffle = false ∧ stest.drop_last = false ∧
      (∀ o1 o2 : List Cut, stest.batches o1 = stest.batches o2) :=
  ⟨_, _, rfl, rfl, rfl, fun _ _ => rfl, rfl, rfl, rfl, fun _ _ => rfl⟩

/-- C5: repeated accessor calls with the same manifest path return the same
cut-collection handle (memoization, from any state), while calls with two
distinct paths (from the initial state) return distinct handles. -/
theorem manifest_memoization (st : ModuleState) (p q : String) (hpq : p ≠ q) :
    (train_custom_cuts (train_custom_cuts st p).2 p).1 =
      (train_custom_cuts st p).1 ∧
    (train_custom_cuts (train_custom_cuts initState p).2 q).1 ≠
      (train_custom_cuts initState p).1 := by
  have hqp : (q == p) = false := beq_eq_false_iff_ne.mpr (Ne.symm hpq)
  constructor
  · rcases hl : st.cache.lookup p with _ | h
    · simp [train_custom_cuts, hl, load_manifest_lazy, List.lookup]
    · simp [train_custom_cuts, hl]
  · simp [train_custom_cuts, initState, load_manifest_lazy, List.lookup, hqp]

/-- Witness for C5 at the concrete paths "a" and "b" from the initial
state. -/
theorem manifest_memoization_witness :
    ("a" : String) ≠ "b" ∧
    ((train_custom_cuts (train_custom_cuts initState "a").2 "a").1 =
        (train_custom_cuts initState "a").1 ∧
      (train_custom_cuts (train_custom_cuts initState "a").2 "b").1 ≠
        (train_custom_cuts initState "a").1) :=
  ⟨by decide, manifest_memoization initState "a" "b" (by decide)⟩

/-- C6: the test-phase dataset requests raw audio while the train and dev
phase datasets do not; all three request text, token sequences and speaker
identifiers, and request cut references exactly when the return-cuts flag is
set. -/
theorem dataset_field_flags (args : Args) (ct cv cts : CutSet)
    (sd : Option StateDict) (g : ℕ) :
    (test_dataloaders args cts).dataset.return_audio = true ∧
    (train_dataloaders args ct sd g).dataset.return_audio = false ∧
    (dev_dataloaders args cv).dataset.return_audio = false ∧
    (train_dataloaders args ct sd g).dataset.return_text = true ∧
    (train_dataloaders args ct sd g).dataset.return_tokens = true ∧
    (train_dataloaders args ct sd g).dataset.return_spk_ids = true ∧
    (train_dataloaders args ct sd g).dataset.return_cuts = args.return_cuts ∧
    (dev_dataloaders args cv).dataset.return_text = true ∧
    (dev_dataloaders args cv).dataset.return_tokens = true ∧
    (dev_dataloaders args cv).dataset.return_spk_ids = true ∧
    (dev_dataloaders args cv).dataset.return_cuts = args.return_cuts ∧
    (test_dataloaders args cts).dataset.return_text = true ∧
    (test_dataloaders args cts).dataset.return_tokens = true ∧
    (test_dataloaders args cts).dataset.return_spk_ids = true ∧
    (test_dataloaders args cts).dataset.return_cuts = args.return_cuts :=
  ⟨rfl, rfl, rfl, rfl, rfl, rfl, rfl, rfl, rfl, rfl, rfl, rfl, rfl, rfl, rfl⟩

/-- C7: when a prior sampler state is supplied to the training-loader
constructor it is loaded into the freshly constructed sampler of whichever
kind was selected (no compatibility check), and when no state is supplied
none is loaded. -/
theorem sampler_state_loading (args : Args) (cuts : CutSet) (sd : StateDict)
    (g : ℕ) :
    (train_dataloaders args cuts (some sd) g).sampler =
      ((train_dataloaders args cuts none g).sampler).load_state_dict sd ∧
    ((train_dataloaders args cuts (some sd) g).sampler).loaded_state =
      some sd ∧
    ((train_dataloaders args cuts none g).sampler).loaded_state = none := by
  refine ⟨rfl, ?_, ?_⟩ <;>
    cases hb : args.bucketing_sampler <;>
      simp [train_dataloaders, hb, CutSampler.load_state_dict,
        CutSampler.loaded_state]

/-- C8: the train and test loaders carry the configured worker count, the
dev loader carries exactly 2 workers, and persistent workers are disabled in
all three phases. -/
theorem worker_counts (args : Args) (ct cv cts : CutSet)
    (sd : Option StateDict) (g : ℕ) :
    (train_dataloaders args ct sd g).num_workers = args.num_workers ∧
    (test_dataloaders args cts).num_workers = args.num_workers ∧
    (dev_dataloaders args cv).num_workers = 2 ∧
    (train_dataloaders args ct sd g).persistent_workers = false ∧
    (dev_dataloaders args cv).persistent_workers = false ∧
    (test_dataloaders args cts).persistent_workers = false :=
  ⟨rfl, rfl, rfl, rfl, rfl, rfl⟩

/-- C9 counterexample: the registered default of `--max-duration` is not the
integer 200 — the source writes `default=200.0`, a float, and argparse does
not apply the `type=int` converter to non-string defaults. -/
theorem max_duration_default_not_int :
    optionDefault "--max-duration" ≠ some (Value.vInt 200) := by
  decide

/-- C9 (amended): the registry declares exactly the listed options in
order; `--max-duration` is declared with an integer type-converter but its
default value is the float 200.0; `--num-buckets` defaults to 30,
`--num-workers` to 8, `--bucketing-sampler`, `--shuffle` and `--drop-last`
to true, and `--on-the-fly-feats` and `--return-cuts` to false. -/
theorem option_registry_defaults :
    add_arguments.map OptionDecl.name =
      ["--manifest-dir", "--max-duration", "--bucketing-sampler",
       "--num-buckets", "--on-the-fly-feats", "--shuffle", "--drop-last",
       "--return-cuts", "--num-workers", "--input-strategy"] ∧
    optionType "--max-duration" = some OptType.tInt ∧
    optionDefault "--max-duration" = some (Value.vFloat 200) ∧
    optionDefault "--num-buckets" = some (Value.vInt 30) ∧
    optionDefault "--num-workers" = some (Value.vInt 8) ∧
    optionDefault "--bucketing-sampler" = some (Value.vBool true) ∧
    optionDefault "--shuffle" = some (Value.vBool true) ∧
    optionDefault "--drop-last" = some (Value.vBool true) ∧
    optionDefault "--on-the-fly-feats" = some (Value.vBool false) ∧
    optionDefault "--return-cuts" = some (Value.vBool false) ∧
    optionDefault "--manifest-dir" = some (Value.vPath "data/fbank") ∧
    optionDefault "--input-strategy" =
      some (Value.vStr "PrecomputedFeatures") := by
  decide

/-- C10: the base seed drawn at training-loader construction lies in
`[0, 100000)`, hence the derived worker seed for worker id `W` lies in
`[W, 100000 + W)`. -/
theorem base_seed_range (args : Args) (cuts : CutSet) (sd : Option StateDict)
    (g : ℕ) (W : ℤ) :
    ∃ fn : _SeedWorkers,
      (train_dataloaders args cuts sd g).worker_init_fn = some fn ∧
      0 ≤ fn.seed ∧ fn.seed < 100000 ∧
      W ≤ (fn.call W).seed ∧ (fn.call W).seed < 100000 + W := by
  have ht : ((100000 : ℤ) - 0).toNat = 100000 := by decide
  refine ⟨⟨torch_randint_item 0 100000 g⟩, rfl, ?_, ?_, ?_, ?_⟩ <;>
    · simp only [torch_randint_item, _SeedWorkers.call, fix_random_seed, ht]
      omega

end ZipVoice
